import Mathlib

/-!
Verification of the real-time synchronization core of the trip-planning
client: the WebSocket connection manager
(`src/frontend/src/context/WebSocketContext.js`), the trips resource cache
(`src/frontend/src/context/TripsContext.js`) and its backend service layer
(`src/frontend/src/services/tripsService.js`), embedded shallowly.

The connection manager is modelled as a deterministic step machine over an
explicit state that mirrors the provider's React state (`isConnected`,
`currentTripId`), the mutable socket reference (`wsRef.current`, as the id
of the current socket) and the set of sockets ever created with their
WHATWG readyState. Network activity (handshake completion, close
completion, error, frame delivery) is modelled as externally chosen steps;
per the WHATWG WebSocket semantics that the source relies on, `close()`
moves a CONNECTING/OPEN socket to CLOSING, an `open` event fires only on a
CONNECTING socket, and `message` events fire only while the socket is OPEN.
The handlers run by each event are exactly the closures the source attaches
in `connectToTrip`.

The trips cache is modelled as pure state transformers: each context
operation takes the cache state and the outcome of the backend call (chosen
by the environment) and returns the new state together with the value
returned or error thrown.
-/

namespace Tripping

/-- WHATWG WebSocket readyState values (CONNECTING, OPEN, CLOSING, CLOSED).
`OPEN` is spelled `opened` because `open` is a Lean keyword. -/
inductive ReadyState
  | connecting
  | opened
  | closing
  | closed
deriving DecidableEq, Repr

/-- One WebSocket object created by `new WebSocket(wsUrl)` in
`connectToTrip`: its identity, the trip id baked into its URL
(`/ws/${tripId}`), and its readyState. -/
structure Socket where
  id : Nat
  tripId : String
  ready : ReadyState
deriving DecidableEq, Repr

/-- A successfully parsed inbound frame: the JSON object handed to
`handleWebSocketMessage`, with the fields the handlers read. -/
structure Msg where
  type : String
  trip_id : Option String
deriving DecidableEq, Repr

/-- The CustomEvents `handleWebSocketMessage` dispatches on `window`. -/
inductive SyncEvent
  | tripUpdated (detail : Msg)
  | tripCreated (detail : Msg)
  | userJoined (detail : Msg)
  | userLeft (detail : Msg)
deriving DecidableEq, Repr

/-- `handleWebSocketMessage` from WebSocketContext.js: switch on
`data.type`; the four known cases dispatch one CustomEvent each; the
default case only logs ("Unknown WebSocket message type") and dispatches
nothing. The result is the list of events dispatched. -/
def handleWebSocketMessage (data : Msg) : List SyncEvent :=
  if data.type = "trip_updated" then [.tripUpdated data]
  else if data.type = "trip_created" then [.tripCreated data]
  else if data.type = "user_joined" then [.userJoined data]
  else if data.type = "user_left" then [.userLeft data]
  else []

/-- The `onmessage` handler body: `JSON.parse` then
`handleWebSocketMessage`; a parse failure (`none`) is caught and only
logged, dispatching nothing. -/
def onmessage : Option Msg → List SyncEvent
  | none => []
  | some data => handleWebSocketMessage data

/-- State of the `WebSocketProvider`: every socket created so far (old
sockets keep their handlers attached until garbage collected), the socket
currently referenced by `wsRef.current` (by id), the React state
`isConnected` and `currentTripId`, and a fresh-id counter. -/
structure WSState where
  sockets : List Socket
  currentWs : Option Nat
  isConnected : Bool
  currentTripId : Option String
  nextId : Nat
deriving DecidableEq, Repr

/-- Initial provider state: no socket, not connected, no trip. -/
def initWS : WSState :=
  { sockets := [], currentWs := none, isConnected := false,
    currentTripId := none, nextId := 0 }

/-- Look a socket up by its id (ids are unique in reachable states). -/
def sockById (h : Nat) (socks : List Socket) : Option Socket :=
  socks.find? fun so => so.id == h

/-- Effect of `socket.close()` on one socket object: a CONNECTING or OPEN
socket moves to CLOSING; a CLOSING or CLOSED socket is unaffected
(WHATWG close algorithm). Sockets other than the target are unaffected. -/
def closeF (h : Nat) (so : Socket) : Socket :=
  if so.id = h then
    match so.ready with
    | .connecting => { so with ready := .closing }
    | .opened => { so with ready := .closing }
    | _ => so
  else so

/-- Apply `close()` to the socket with id `h`. -/
def closeSock (h : Nat) (socks : List Socket) : List Socket :=
  socks.map (closeF h)

/-- Set the readyState of the socket with id `h`. -/
def setF (h : Nat) (r : ReadyState) (so : Socket) : Socket :=
  if so.id = h then { so with ready := r } else so

/-- Set the readyState of the socket with id `h` in a socket list. -/
def setReady (h : Nat) (r : ReadyState) (socks : List Socket) : List Socket :=
  socks.map (setF h r)

/-- The `if (wsRef.current) wsRef.current.close()` prelude shared by
`connectToTrip` and `disconnectFromTrip`. -/
def closeCurrent (s : WSState) : List Socket :=
  match s.currentWs with
  | some h => closeSock h s.sockets
  | none => s.sockets

/-- External steps driving the manager: the caller-invoked operations
(`connectToTrip`, `disconnectFromTrip`, `sendMessage`) and the
network-chosen socket events (`onopen`, `onclose`, `onerror`, `onmessage`,
each addressed to the socket whose handler fires). -/
inductive Step
  | connect (user : Bool) (tripId : Option String)
  | disconnect
  | send (message : String)
  | openEvt (h : Nat)
  | closeEvt (h : Nat)
  | errorEvt (h : Nat)
  | msgEvt (h : Nat) (frame : Option Msg)
deriving DecidableEq, Repr

/-- One step of the manager, returning the new state and the Sync Events
dispatched during the step.

* `connect`: `connectToTrip(tripId)` — returns immediately when `!user ||
  !tripId` (no user, `null` id, or empty string id); otherwise closes the
  current socket if any and immediately creates a fresh socket to
  `/ws/${tripId}` which becomes `wsRef.current`. React state is untouched
  until the new socket's events fire.
* `disconnect`: `disconnectFromTrip()` — closes the current socket, nulls
  the reference, sets `isConnected=false`, `currentTripId=null`.
* `send`: `sendMessage` never changes state nor dispatches Sync Events
  (transmission is modelled by `sendMessage` below).
* `openEvt h`: the handshake of socket `h` completes; fires only while the
  socket is CONNECTING (a socket closed during CONNECTING never opens).
  Runs that socket's `onopen`: `setIsConnected(true)`,
  `setCurrentTripId(tripId)` for the tripId captured at creation.
* `closeEvt h`: socket `h` finishes closing (or closes abnormally); fires
  on any not-yet-CLOSED socket and runs that socket's `onclose`:
  `setIsConnected(false)`, `setCurrentTripId(null)` — note the handler of
  an old, superseded socket still runs.
* `errorEvt h`: socket `h` errors; its `onerror` sets
  `setIsConnected(false)`.
* `msgEvt h frame`: a frame is delivered for socket `h`; per WHATWG
  semantics the `message` event fires only while the socket is OPEN; the
  handler parses and dispatches via `onmessage`. -/
def step (s : WSState) : Step → WSState × List SyncEvent
  | .connect user tripId =>
    match tripId with
    | none => (s, [])
    | some r =>
      if user = false ∨ r = "" then (s, [])
      else
        ({ sockets := closeCurrent s ++ [⟨s.nextId, r, .connecting⟩],
           currentWs := some s.nextId,
           isConnected := s.isConnected,
           currentTripId := s.currentTripId,
           nextId := s.nextId + 1 }, [])
  | .disconnect =>
    ({ s with sockets := closeCurrent s, currentWs := none,
              isConnected := false, currentTripId := none }, [])
  | .send _ => (s, [])
  | .openEvt h =>
    match sockById h s.sockets with
    | some so =>
      if so.ready = .connecting then
        ({ s with sockets := setReady h .opened s.sockets,
                  isConnected := true, currentTripId := some so.tripId }, [])
      else (s, [])
    | none => (s, [])
  | .closeEvt h =>
    match sockById h s.sockets with
    | some so =>
      if so.ready = .closed then (s, [])
      else
        ({ s with sockets := setReady h .closed s.sockets,
                  isConnected := false, currentTripId := none }, [])
    | none => (s, [])
  | .errorEvt h =>
    match sockById h s.sockets with
    | some so =>
      if so.ready = .closed then (s, [])
      else ({ s with isConnected := false }, [])
    | none => (s, [])
  | .msgEvt h frame =>
    match sockById h s.sockets with
    | some so =>
      if so.ready = .opened then (s, onmessage frame) else (s, [])
    | none => (s, [])

/-- Run a sequence of steps from a state. -/
def run (s : WSState) : List Step → WSState
  | [] => s
  | a :: tr => run (step s a).1 tr

/-- `sendMessage(message)` from WebSocketContext.js: transmit only when
`wsRef.current` exists and `readyState === WebSocket.OPEN`; otherwise the
message is silently dropped (`none`). Returns the transmission performed:
the socket used and the payload. -/
def sendMessage (s : WSState) (message : String) : Option (Nat × String) :=
  match s.currentWs with
  | some h =>
    match sockById h s.sockets with
    | some so => if so.ready = .opened then some (h, message) else none
    | none => none
  | none => none

/-- Whether a step is an Open transition: an `open` event firing on a
socket that is actually CONNECTING. -/
def isOpenTransition (s : WSState) : Step → Bool
  | .openEvt h =>
    match sockById h s.sockets with
    | some so => so.ready == .connecting
    | none => false
  | _ => false

/-- Number of Open transitions along a run. -/
def openCount (s : WSState) : List Step → Nat
  | [] => 0
  | a :: tr => (if isOpenTransition s a then 1 else 0) + openCount (step s a).1 tr

/-!
The trips resource cache (`TripsContext.js` over `tripsService.js`).
A backend call's outcome is chosen by the environment: `Except (Option
String) α` is either the parsed response body or a failure carrying the
optional `error.response.data.detail` string.
-/

/-- A trip snapshot as the cache stores it; the claims only inspect the
`id` field and one representative data field. -/
structure Trip where
  id : String
  title : String
deriving DecidableEq, Repr

/-- React state of `TripsProvider`: the `trips` list and the `loading` /
`error` flags. -/
structure TripsState where
  trips : List Trip
  loading : Bool
  error : Option String
deriving DecidableEq, Repr

/-- The message built by tripsService's catch blocks:
`error.response?.data?.detail || fallback` — JavaScript `||` falls back
when `detail` is absent or the empty string. -/
def errMessage (detail : Option String) (fallback : String) : String :=
  match detail with
  | some d => if d = "" then fallback else d
  | none => fallback

/-- `tripsService.getTrip`: return `response.data` or throw
`new Error(detail || "Failed to fetch trip")`. -/
def tripsServiceGetTrip (api : Except (Option String) Trip) : Except String Trip :=
  match api with
  | .ok t => .ok t
  | .error detail => .error (errMessage detail "Failed to fetch trip")

/-- `tripsService.getTrips` (the list endpoint). -/
def tripsServiceGetTrips (api : Except (Option String) (List Trip)) :
    Except String (List Trip) :=
  match api with
  | .ok l => .ok l
  | .error detail => .error (errMessage detail "Failed to fetch trips")

/-- `tripsService.createTrip`. -/
def tripsServiceCreateTrip (api : Except (Option String) Trip) : Except String Trip :=
  match api with
  | .ok t => .ok t
  | .error detail => .error (errMessage detail "Failed to create trip")

/-- `tripsService.updateTrip`. -/
def tripsServiceUpdateTrip (api : Except (Option String) Trip) : Except String Trip :=
  match api with
  | .ok t => .ok t
  | .error detail => .error (errMessage detail "Failed to update trip")

/-- `tripsService.deleteTrip`: resolves to `true` on success. -/
def tripsServiceDeleteTrip (api : Except (Option String) Unit) : Except String Bool :=
  match api with
  | .ok _ => .ok true
  | .error detail => .error (errMessage detail "Failed to delete trip")

/-- `createTrip(tripData)` from TripsContext.js: on success append the
server response `newTrip` to the list and return it; on error record
`err.message` in the `error` flag and rethrow. The submitted `tripData`
is only forwarded to the backend, never stored. -/
def createTrip (s : TripsState) (tripData : Trip)
    (api : Except (Option String) Trip) : TripsState × Except String Trip :=
  match tripsServiceCreateTrip api with
  | .ok newTrip => ({ s with trips := s.trips ++ [newTrip] }, .ok newTrip)
  | .error m => ({ s with error := some m }, .error m)

/-- `updateTrip(tripId, tripData)` from TripsContext.js: on success map
over the list replacing every entry whose id equals `tripId` by the server
response `updatedTrip`; on error record the message and rethrow. -/
def updateTrip (s : TripsState) (tripId : String) (tripData : Trip)
    (api : Except (Option String) Trip) : TripsState × Except String Trip :=
  match tripsServiceUpdateTrip api with
  | .ok updatedTrip =>
    ({ s with trips := s.trips.map fun trip =>
        if trip.id = tripId then updatedTrip else trip }, .ok updatedTrip)
  | .error m => ({ s with error := some m }, .error m)

/-- `deleteTrip(tripId)` from TripsContext.js: on success filter the entry
out of the list; on error record the message and rethrow. -/
def deleteTrip (s : TripsState) (tripId : String)
    (api : Except (Option String) Unit) : TripsState × Except String Bool :=
  match tripsServiceDeleteTrip api with
  | .ok b => ({ s with trips := s.trips.filter fun trip => trip.id != tripId }, .ok b)
  | .error m => ({ s with error := some m }, .error m)

/-- `getTrip(tripId)` from TripsContext.js: returns the fetched snapshot
without touching the `trips` list; on error records the message and
rethrows. -/
def getTrip (s : TripsState) (tripId : String)
    (api : Except (Option String) Trip) : TripsState × Except String Trip :=
  match tripsServiceGetTrip api with
  | .ok t => (s, .ok t)
  | .error m => ({ s with error := some m }, .error m)

/-- `fetchTrips` from TripsContext.js: no-op without a user; otherwise set
`loading`, clear `error`, and either replace the whole list with the
response or record the error message; `finally` clears `loading`. -/
def fetchTrips (user : Bool) (s : TripsState)
    (api : Except (Option String) (List Trip)) : TripsState :=
  if user = false then s
  else
    match tripsServiceGetTrips api with
    | .ok userTrips => { s with trips := userTrips, loading := false, error := none }
    | .error m => { s with error := some m, loading := false }

/-- Look up the cache entry for an id (first match). -/
def findTrip (id : String) (l : List Trip) : Option Trip :=
  l.find? fun trip => trip.id == id

/-!
Formalizations of the claims that turn out to fail on the code, stated as
`Prop`s so that a counterexample can refute them, plus the concrete traces
and states the counterexamples and witnesses use.
-/

/-- The teardown-before-canonical part of the C1 claim (spec Scenario B:
`Closing(A) → Idle → Connecting(B) → Open(B)`): in every reachable state in
which the current channel is Open, every other channel has fully closed. -/
def fullyTornDownBeforeCanonical : Prop :=
  ∀ (tr : List Step) (so : Socket), so ∈ (run initWS tr).sockets →
    (∃ cur, cur ∈ (run initWS tr).sockets ∧
      (run initWS tr).currentWs = some cur.id ∧ cur.ready = .opened) →
    (run initWS tr).currentWs ≠ some so.id → so.ready = .closed

/-- Bind to "A", open; bind to "B", open. Socket 0 is then Closing, not
Closed, while socket 1 is Open and canonical. -/
def traceC1 : List Step :=
  [.connect true (some "A"), .openEvt 0, .connect true (some "B"), .openEvt 1]

/-- `traceC1` followed by the delivery of the old socket's close
completion, whose `onclose` handler clobbers the connectivity status of
the already-Open new binding. -/
def traceC1close : List Step :=
  traceC1 ++ [.closeEvt 0]

/-- The C3 claim: `connectToTrip(roomId)` called again with the same
`roomId` while the current binding is Open or Connecting is a no-op. -/
def bindIdempotentNoOp : Prop :=
  ∀ (s : WSState) (r : String) (so : Socket),
    so ∈ s.sockets → s.currentWs = some so.id → so.tripId = r →
    (so.ready = .connecting ∨ so.ready = .opened) →
    (step s (.connect true (some r))).1 = s

/-- Bind to "A" twice with an open in between: the claim says the second
bind is a no-op and only one Open transition happens in total. -/
def traceC3 : List Step :=
  [.connect true (some "A"), .openEvt 0, .connect true (some "A"), .openEvt 1]

/-- The dispatch part of the C4 claim: a parsed frame with an unrecognized
`type` is still dispatched to subscribers as a generic "unknown" event. -/
def unknownStillDispatched : Prop :=
  ∀ (data : Msg),
    data.type ≠ "trip_updated" → data.type ≠ "trip_created" →
    data.type ≠ "user_joined" → data.type ≠ "user_left" →
    handleWebSocketMessage data ≠ []

/-- The C2 claim: with requests R1 then R2 for the same id and R2's
response arriving first, the cache ends up holding R2's result even after
R1's response is applied later (stale responses discarded). The inner
`updateTrip` is the earlier arrival (R2's response `t2`), the outer one
the later arrival (R1's response `t1`). -/
def staleResponseDiscarded : Prop :=
  ∀ (s : TripsState) (id : String) (t1 t2 : Trip),
    t1.id = id → t2.id = id → (findTrip id s.trips).isSome = true →
    findTrip id
      ((updateTrip (updateTrip s id t2 (.ok t2)).1 id t1 (.ok t1)).1.trips) = some t2

/-- The create part of the C8 claim: `create` preserves the no-duplicate-id
invariant of the cache. -/
def createPreservesNoDup : Prop :=
  ∀ (s : TripsState) (payload t : Trip),
    (s.trips.map Trip.id).Nodup →
    ((createTrip s payload (.ok t)).1.trips.map Trip.id).Nodup

/-- A reachable state with one open binding to room "A" (used by
witnesses). -/
def wsOpenA : WSState :=
  run initWS [.connect true (some "A"), .openEvt 0]

/-!
Reachability invariant of the connection manager: socket ids are bounded
by the fresh counter and pairwise distinct, and any socket that is still
CONNECTING or OPEN is the one `wsRef.current` points to (because both
`connectToTrip` and `disconnectFromTrip` close the current socket before
replacing or dropping the reference).
-/

/-- A socket that is still CONNECTING or OPEN. -/
def active (so : Socket) : Prop :=
  so.ready = .connecting ∨ so.ready = .opened

/-- Invariant of reachable manager states. -/
def Inv (s : WSState) : Prop :=
  (∀ so ∈ s.sockets, so.id < s.nextId) ∧
  (s.sockets.map Socket.id).Nodup ∧
  (∀ so ∈ s.sockets, active so → s.currentWs = some so.id)

theorem closeF_id (h : Nat) (so : Socket) : (closeF h so).id = so.id := by
  unfold closeF
  split
  · split <;> rfl
  · rfl

theorem setF_id (h : Nat) (r : ReadyState) (so : Socket) : (setF h r so).id = so.id := by
  unfold setF
  split <;> rfl

theorem closeSock_ids (h : Nat) (l : List Socket) :
    (closeSock h l).map Socket.id = l.map Socket.id := by
  induction l with
  | nil => rfl
  | cons a t ih => simp [closeSock, List.map_cons, closeF_id] at ih ⊢

theorem setReady_ids (h : Nat) (r : ReadyState) (l : List Socket) :
    (setReady h r l).map Socket.id = l.map Socket.id := by
  induction l with
  | nil => rfl
  | cons a t ih => simp [setReady, List.map_cons, setF_id] at ih ⊢

theorem closeCurrent_ids (s : WSState) :
    (closeCurrent s).map Socket.id = s.sockets.map Socket.id := by
  unfold closeCurrent
  cases s.currentWs with
  | none => rfl
  | some h => exact closeSock_ids h s.sockets

theorem closeF_not_active (h : Nat) (so : Socket) (hid : so.id = h) :
    ¬ active (closeF h so) := by
  unfold closeF active
  rw [if_pos hid]
  cases hr : so.ready <;> simp [hr]

theorem closeF_of_ne (h : Nat) (so : Socket) (hid : so.id ≠ h) : closeF h so = so := by
  unfold closeF
  rw [if_neg hid]

theorem setF_of_ne (h : Nat) (r : ReadyState) (so : Socket) (hid : so.id ≠ h) :
    setF h r so = so := by
  unfold setF
  rw [if_neg hid]

theorem sockById_mem (h : Nat) (l : List Socket) (so : Socket)
    (hfind : sockById h l = some so) : so ∈ l ∧ so.id = h := by
  refine ⟨List.mem_of_find?_eq_some hfind, ?_⟩
  have := List.find?_some hfind
  simpa [beq_iff_eq] using this

theorem closeCurrent_not_active (s : WSState)
    (h3 : ∀ so ∈ s.sockets, active so → s.currentWs = some so.id) :
    ∀ so ∈ closeCurrent s, ¬ active so := by
  intro so hso hact
  unfold closeCurrent at hso
  cases hcur : s.currentWs with
  | none =>
    rw [hcur] at hso
    have := h3 so hso hact
    rw [hcur] at this
    exact Option.noConfusion this
  | some h =>
    rw [hcur] at hso
    rcases List.mem_map.1 hso with ⟨orig, horig, hmap⟩
    by_cases hid : orig.id = h
    · exact closeF_not_active h orig hid (by rw [hmap]; exact hact)
    · rw [closeF_of_ne h orig hid] at hmap
      have hact' : active orig := by rw [hmap]; exact hact
      have := h3 orig horig hact'
      rw [hcur] at this
      exact hid (Option.some.inj this).symm

theorem inv_bound_of_ids_eq {l l' : List Socket} {n : Nat}
    (hids : l'.map Socket.id = l.map Socket.id)
    (hb : ∀ so ∈ l, so.id < n) : ∀ so ∈ l', so.id < n := by
  intro so hso
  have hmem : so.id ∈ l.map Socket.id := by
    rw [← hids]
    exact List.mem_map_of_mem _ hso
  rcases List.mem_map.1 hmem with ⟨orig, horig, hid⟩
  have := hb orig horig
  omega

theorem step_preserves_inv (s : WSState) (a : Step) (hinv : Inv s) :
    Inv (step s a).1 := by
  obtain ⟨h1, h2, h3⟩ := hinv
  cases a with
  | connect user t =>
    cases t with
    | none => exact ⟨h1, h2, h3⟩
    | some r =>
      by_cases hg : user = false ∨ r = ""
      · simp only [step, if_pos hg]
        exact ⟨h1, h2, h3⟩
      · simp only [step, if_neg hg]
        refine ⟨?_, ?_, ?_⟩
        · intro so hso
          show so.id < s.nextId + 1
          rcases List.mem_append.1 hso with hmem | hmem
          · have hb := inv_bound_of_ids_eq (closeCurrent_ids s) h1 so hmem
            omega
          · rw [List.mem_singleton] at hmem
            subst hmem
            show s.nextId < s.nextId + 1
            omega
        · show ((closeCurrent s ++ [Socket.mk s.nextId r .connecting]).map Socket.id).Nodup
          rw [List.map_append, closeCurrent_ids, List.nodup_append]
          refine ⟨h2, List.nodup_singleton _, ?_⟩
          intro x hx hx'
          rcases List.mem_map.1 hx with ⟨orig, horig, hid⟩
          have := h1 orig horig
          simp only [List.map_cons, List.map_nil, List.mem_singleton] at hx'
          omega
        · intro so hso hact
          rcases List.mem_append.1 hso with hmem | hmem
          · exact absurd hact (closeCurrent_not_active s h3 so hmem)
          · rw [List.mem_singleton] at hmem
            subst hmem
            rfl
  | disconnect =>
    refine ⟨?_, ?_, ?_⟩
    · exact inv_bound_of_ids_eq (closeCurrent_ids s) h1
    · show ((closeCurrent s).map Socket.id).Nodup
      rw [closeCurrent_ids]
      exact h2
    · intro so hso hact
      exact absurd hact (closeCurrent_not_active s h3 so hso)
  | send m => exact ⟨h1, h2, h3⟩
  | openEvt h =>
    cases hfind : sockById h s.sockets with
    | none => simp only [step, hfind]; exact ⟨h1, h2, h3⟩
    | some so =>
      by_cases hr : so.ready = .connecting
      · simp only [step, hfind, if_pos hr]
        obtain ⟨hmem, hid⟩ := sockById_mem h s.sockets so hfind
        have hcur : s.currentWs = some h := by
          have := h3 so hmem (Or.inl hr)
          rw [hid] at this
          exact this
        refine ⟨inv_bound_of_ids_eq (setReady_ids h .opened s.sockets) h1, ?_, ?_⟩
        · show ((setReady h .opened s.sockets).map Socket.id).Nodup
          rw [setReady_ids]
          exact h2
        · intro so' hso' hact'
          rcases List.mem_map.1 hso' with ⟨orig, horig, hmap⟩
          show s.currentWs = some so'.id
          by_cases hid' : orig.id = h
          · have hso'id : so'.id = h := by
              rw [← hmap]
              show (setF h .opened orig).id = h
              unfold setF
              rw [if_pos hid']
              exact hid'
            rw [hcur, hso'id]
          · rw [setF_of_ne h .opened orig hid'] at hmap
            have hact'' : active orig := by rw [hmap]; exact hact'
            have := h3 orig horig hact''
            rw [this, hmap]
      · simp only [step, hfind, if_neg hr]
        exact ⟨h1, h2, h3⟩
  | closeEvt h =>
    cases hfind : sockById h s.sockets with
    | none => simp only [step, hfind]; exact ⟨h1, h2, h3⟩
    | some so =>
      by_cases hr : so.ready = .closed
      · simp only [step, hfind, if_pos hr]
        exact ⟨h1, h2, h3⟩
      · simp only [step, hfind, if_neg hr]
        refine ⟨inv_bound_of_ids_eq (setReady_ids h .closed s.sockets) h1, ?_, ?_⟩
        · show ((setReady h .closed s.sockets).map Socket.id).Nodup
          rw [setReady_ids]
          exact h2
        · intro so' hso' hact'
          rcases List.mem_map.1 hso' with ⟨orig, horig, hmap⟩
          show s.currentWs = some so'.id
          by_cases hid' : orig.id = h
          · exfalso
            have hcl : so'.ready = .closed := by
              rw [← hmap]
              show (setF h .closed orig).ready = .closed
              unfold setF
              rw [if_pos hid']
            rcases hact' with hc | hc <;> rw [hcl] at hc <;> exact ReadyState.noConfusion hc
          · rw [setF_of_ne h .closed orig hid'] at hmap
            have hact'' : active orig := by rw [hmap]; exact hact'
            have := h3 orig horig hact''
            rw [this, hmap]
  | errorEvt h =>
    cases hfind : sockById h s.sockets with
    | none => simp only [step, hfind]; exact ⟨h1, h2, h3⟩
    | some so =>
      by_cases hr : so.ready = .closed
      · simp only [step, hfind, if_pos hr]
        exact ⟨h1, h2, h3⟩
      · simp only [step, hfind, if_neg hr]
        exact ⟨h1, h2, h3⟩
  | msgEvt h frame =>
    cases hfind : sockById h s.sockets with
    | none => simp only [step, hfind]; exact ⟨h1, h2, h3⟩
    | some so =>
      by_cases hr : so.ready = .opened
      · simp only [step, hfind, if_pos hr]
        exact ⟨h1, h2, h3⟩
      · simp only [step, hfind, if_neg hr]
        exact ⟨h1, h2, h3⟩

theorem inv_init : Inv initWS :=
  ⟨by intro so hso; simp [initWS] at hso,
   by simp [initWS],
   by intro so hso; simp [initWS] at hso⟩

theorem run_preserves_inv (tr : List Step) (s : WSState) (h : Inv s) :
    Inv (run s tr) := by
  induction tr generalizing s with
  | nil => exact h
  | cons a t ih => exact ih _ (step_preserves_inv s a h)

theorem run_inv (tr : List Step) : Inv (run initWS tr) :=
  run_preserves_inv tr initWS inv_init

theorem length_le_one_of_const_id {c : Nat} :
    ∀ {l : List Socket}, (l.map Socket.id).Nodup → (∀ so ∈ l, so.id = c) →
      l.length ≤ 1
  | [], _, _ => by simp
  | [_], _, _ => by simp
  | a :: b :: t, hn, hc => by
    exfalso
    have ha := hc a (by simp)
    have hb := hc b (by simp)
    simp only [List.map_cons, List.nodup_cons, List.mem_cons] at hn
    exact hn.1 (Or.inl (ha.trans hb.symm))

/-- In any reachable state, at most one socket is OPEN. -/
theorem inv_open_le_one (s : WSState) (hinv : Inv s) :
    (s.sockets.filter fun so => so.ready == .opened).length ≤ 1 := by
  obtain ⟨h1, h2, h3⟩ := hinv
  cases hcur : s.currentWs with
  | none =>
    have hnil : (s.sockets.filter fun so => so.ready == .opened) = [] := by
      rw [List.filter_eq_nil_iff]
      intro so hso hop
      have hop' : so.ready = .opened := by simpa [beq_iff_eq] using hop
      have := h3 so hso (Or.inr hop')
      rw [hcur] at this
      exact Option.noConfusion this
    rw [hnil]
    simp
  | some c =>
    apply length_le_one_of_const_id (c := c)
    · exact h2.sublist ((List.filter_sublist _).map Socket.id)
    · intro so hso
      have hmem := List.mem_filter.1 hso
      have hop : so.ready = .opened := by simpa [beq_iff_eq] using hmem.2
      have := h3 so hmem.1 (Or.inr hop)
      rw [hcur] at this
      exact (Option.some.inj this).symm

/-!
Shared helper lemmas for the claim theorems.
-/

theorem errMessage_ne (detail : Option String) (fallback : String)
    (hfb : fallback ≠ "") : errMessage detail fallback ≠ "" := by
  unfold errMessage
  cases detail with
  | none => exact hfb
  | some d =>
    show (if d = "" then fallback else d) ≠ ""
    by_cases hd : d = ""
    · rw [if_pos hd]; exact hfb
    · rw [if_neg hd]; exact hd

theorem map_id_update (l : List Trip) (tripId : String) (t : Trip)
    (hid : t.id = tripId) :
    (l.map fun trip => if trip.id = tripId then t else trip).map Trip.id =
      l.map Trip.id := by
  induction l with
  | nil => rfl
  | cons a l ih =>
    simp only [List.map_cons]
    have hhead : (if a.id = tripId then t else a).id = a.id := by
      by_cases ha : a.id = tripId
      · rw [if_pos ha, hid, ha]
      · rw [if_neg ha]
    rw [hhead, ih]

theorem findTrip_update (l : List Trip) (id : String) (t : Trip)
    (ht : t.id = id) (hs : (findTrip id l).isSome = true) :
    findTrip id (l.map fun trip => if trip.id = id then t else trip) = some t := by
  induction l with
  | nil => simp [findTrip] at hs
  | cons a l ih =>
    unfold findTrip at hs ⊢
    by_cases ha : a.id = id
    · rw [List.map_cons, List.find?_cons_of_pos]
      · rw [if_pos ha]
      · rw [if_pos ha]; simp [beq_iff_eq, ht]
    · rw [List.map_cons, List.find?_cons_of_neg]
      · apply ih
        rw [List.find?_cons_of_neg] at hs
        · exact hs
        · simp [beq_iff_eq, ha]
      · rw [if_neg ha]; simp [beq_iff_eq, ha]

theorem find?_id_none (l : List Socket) (n : Nat)
    (hb : ∀ so ∈ l, so.id ≠ n) : (l.find? fun so => so.id == n) = none := by
  rw [List.find?_eq_none]
  intro so hso
  simp only [beq_iff_eq]
  exact hb so hso

theorem closeCurrent_length (s : WSState) :
    (closeCurrent s).length = s.sockets.length := by
  unfold closeCurrent
  cases s.currentWs <;> simp [closeSock]

/-!
The claims.
-/

/-- C6: an inbound frame that fails to parse is dropped: the manager does
not crash (the step is total), the connection state and connectivity
status are unchanged (the resulting state is the original state), and no
Sync Event is dispatched. A parse failure is the `none` frame, on which
`onmessage`'s catch block only logs. -/
theorem c6_unparseable_frame_dropped (s : WSState) (h : Nat) :
    step s (.msgEvt h none) = (s, []) := by
  cases hfind : sockById h s.sockets with
  | none => simp [step, hfind]
  | some so =>
    by_cases hr : so.ready = .opened
    · simp [step, hfind, hr, onmessage]
    · simp [step, hfind, hr]

/-- C9: `sendMessage(message)` never raises, never changes state, never
dispatches events; the message is transmitted exactly when the current
socket exists and is OPEN, and is silently dropped otherwise. -/
theorem c9_send_only_when_open (s : WSState) (message : String) :
    step s (.send message) = (s, []) ∧
    (∀ (h : Nat) (so : Socket), s.currentWs = some h →
      sockById h s.sockets = some so →
      (so.ready = .opened → sendMessage s message = some (h, message)) ∧
      (so.ready ≠ .opened → sendMessage s message = none)) ∧
    (s.currentWs = none → sendMessage s message = none) ∧
    (∀ (h : Nat), s.currentWs = some h → sockById h s.sockets = none →
      sendMessage s message = none) := by
  refine ⟨rfl, ?_, ?_, ?_⟩
  · intro h so hcur hfind
    constructor
    · intro hr
      simp [sendMessage, hcur, hfind, hr]
    · intro hr
      simp [sendMessage, hcur, hfind, hr]
  · intro hcur
    simp [sendMessage, hcur]
  · intro h hcur hfind
    simp [sendMessage, hcur, hfind]

/-- C9 witness: in the reachable state with an open binding to room "A"
the message is transmitted on socket 0; in the initial state it is
silently dropped. -/
theorem c9_send_only_when_open_witness :
    sendMessage wsOpenA "hello" = some (0, "hello") ∧
    sendMessage initWS "hello" = none :=
  ⟨((c9_send_only_when_open wsOpenA "hello").2.1 0 ⟨0, "A", .opened⟩
      (by decide) (by decide)).1 rfl,
   (c9_send_only_when_open initWS "hello").2.2.1 rfl⟩

/-- C10: `connectToTrip` called with no authenticated user, a null room
id, or an empty room id returns immediately: the entire state (including
any existing channel, `isConnected` and `currentTripId`) is unchanged and
nothing is dispatched. -/
theorem c10_connect_guard_noop (s : WSState) (user : Bool)
    (tripId : Option String)
    (h : user = false ∨ tripId = none ∨ tripId = some "") :
    step s (.connect user tripId) = (s, []) := by
  rcases h with h | h | h
  · cases tripId with
    | none => rfl
    | some r => simp [step, h]
  · subst h; rfl
  · subst h; simp [step]

/-- C10 witness: exercised at the initial state with no user, and at a
reachable open state with a null and with an empty room id. -/
theorem c10_connect_guard_noop_witness :
    step initWS (.connect false (some "X")) = (initWS, []) ∧
    step wsOpenA (.connect true none) = (wsOpenA, []) ∧
    step wsOpenA (.connect true (some "")) = (wsOpenA, []) :=
  ⟨c10_connect_guard_noop initWS false (some "X") (Or.inl rfl),
   c10_connect_guard_noop wsOpenA true none (Or.inr (Or.inl rfl)),
   c10_connect_guard_noop wsOpenA true (some "") (Or.inr (Or.inr rfl))⟩

/-- C4 counterexample: the frame `{type:"mystery"}` parses and has an
unrecognized type, but `handleWebSocketMessage` dispatches no event at all
(the default branch only logs), contradicting the claim that a generic
"unknown" event is still dispatched to subscribers. -/
theorem c4_counterexample : ¬ unknownStillDispatched := by
  intro hclaim
  exact hclaim ⟨"mystery", none⟩ (by decide) (by decide) (by decide) (by decide)
    (by decide)

/-- C4 amended: a parsed frame with an unrecognized `type` is accepted
without error and triggers no built-in reaction — no cache mutation and no
state transition — but, contrary to the claim, it is not dispatched to
subscribers either: the dispatch list is empty. -/
theorem c4_amended_unknown_ignored (data : Msg)
    (h1 : data.type ≠ "trip_updated") (h2 : data.type ≠ "trip_created")
    (h3 : data.type ≠ "user_joined") (h4 : data.type ≠ "user_left") :
    handleWebSocketMessage data = [] ∧
    ∀ (s : WSState) (h : Nat), (step s (.msgEvt h (some data))).1 = s := by
  constructor
  · simp [handleWebSocketMessage, h1, h2, h3, h4]
  · intro s h
    cases hfind : sockById h s.sockets with
    | none => simp [step, hfind]
    | some so =>
      by_cases hr : so.ready = .opened
      · simp [step, hfind, hr]
      · simp [step, hfind, hr]

/-- C4 amended witness: the unrecognized frame `{type:"mystery"}`
dispatches nothing and leaves the open state unchanged. -/
theorem c4_amended_unknown_ignored_witness :
    handleWebSocketMessage ⟨"mystery", none⟩ = [] ∧
    (step wsOpenA (.msgEvt 0 (some ⟨"mystery", none⟩))).1 = wsOpenA :=
  ⟨(c4_amended_unknown_ignored ⟨"mystery", none⟩ (by decide) (by decide)
      (by decide) (by decide)).1,
   (c4_amended_unknown_ignored ⟨"mystery", none⟩ (by decide) (by decide)
      (by decide) (by decide)).2 wsOpenA 0⟩

/-- C5: when the backend call errors (with any optional detail string),
each of `get`, `create`, `update`, `remove` leaves the cached trip list
exactly as it was and fails with an error carrying a non-empty
human-readable message (the response detail, or the operation's fallback
message when the detail is absent or empty). -/
theorem c5_error_leaves_cache_unchanged (s : TripsState) (tripId : String)
    (tripData : Trip) (detail : Option String) :
    ((getTrip s tripId (.error detail)).1.trips = s.trips ∧
      ∃ m, (getTrip s tripId (.error detail)).2 = .error m ∧ m ≠ "") ∧
    ((createTrip s tripData (.error detail)).1.trips = s.trips ∧
      ∃ m, (createTrip s tripData (.error detail)).2 = .error m ∧ m ≠ "") ∧
    ((updateTrip s tripId tripData (.error detail)).1.trips = s.trips ∧
      ∃ m, (updateTrip s tripId tripData (.error detail)).2 = .error m ∧ m ≠ "") ∧
    ((deleteTrip s tripId (.error detail)).1.trips = s.trips ∧
      ∃ m, (deleteTrip s tripId (.error detail)).2 = .error m ∧ m ≠ "") := by
  refine ⟨⟨rfl, ?_⟩, ⟨rfl, ?_⟩, ⟨rfl, ?_⟩, ⟨rfl, ?_⟩⟩
  · exact ⟨errMessage detail "Failed to fetch trip", rfl,
      errMessage_ne detail _ (by decide)⟩
  · exact ⟨errMessage detail "Failed to create trip", rfl,
      errMessage_ne detail _ (by decide)⟩
  · exact ⟨errMessage detail "Failed to update trip", rfl,
      errMessage_ne detail _ (by decide)⟩
  · exact ⟨errMessage detail "Failed to delete trip", rfl,
      errMessage_ne detail _ (by decide)⟩

/-- C7: on success, `create` appends exactly the server response to the
cache (independently of the submitted payload), `update` replaces exactly
the entries with the requested id by the server response, and `remove`
evicts the entry with that id: no trip with the removed id remains and the
lookup for it fails. -/
theorem c7_server_snapshot_cached (s : TripsState) (tripId : String)
    (payload payload' t : Trip) :
    (createTrip s payload (.ok t)).1.trips = s.trips ++ [t] ∧
    (createTrip s payload (.ok t)).1.trips =
      (createTrip s payload' (.ok t)).1.trips ∧
    (updateTrip s tripId payload (.ok t)).1.trips =
      s.trips.map (fun trip => if trip.id = tripId then t else trip) ∧
    (∀ trip ∈ (deleteTrip s tripId (.ok ())).1.trips, trip.id ≠ tripId) ∧
    findTrip tripId ((deleteTrip s tripId (.ok ())).1.trips) = none := by
  refine ⟨rfl, rfl, rfl, ?_, ?_⟩
  · intro trip htrip
    simp only [deleteTrip, tripsServiceDeleteTrip] at htrip
    rcases List.mem_filter.1 htrip with ⟨_, hne⟩
    simpa using hne
  · simp only [deleteTrip, tripsServiceDeleteTrip, findTrip]
    rw [List.find?_eq_none]
    intro a ha
    rcases List.mem_filter.1 ha with ⟨_, hne⟩
    simp only [bne_iff_ne, ne_eq] at hne
    simpa [beq_iff_eq] using hne

/-- C7 witness: removing trip "2" from a two-entry cache leaves only trip
"1" and the lookup for "2" fails; create appends the server snapshot. -/
theorem c7_server_snapshot_cached_witness :
    (createTrip ⟨[⟨"1", "X"⟩], false, none⟩ ⟨"9", "P"⟩ (.ok ⟨"2", "Y"⟩)).1.trips =
      [⟨"1", "X"⟩] ++ [⟨"2", "Y"⟩] ∧
    (∀ trip ∈ (deleteTrip ⟨[⟨"1", "X"⟩, ⟨"2", "Y"⟩], false, none⟩ "2"
        (.ok ())).1.trips, trip.id ≠ "2") ∧
    findTrip "2" ((deleteTrip ⟨[⟨"1", "X"⟩, ⟨"2", "Y"⟩], false, none⟩ "2"
        (.ok ())).1.trips) = none :=
  ⟨(c7_server_snapshot_cached ⟨[⟨"1", "X"⟩], false, none⟩ "2" ⟨"9", "P"⟩
      ⟨"9", "P"⟩ ⟨"2", "Y"⟩).1,
   (c7_server_snapshot_cached ⟨[⟨"1", "X"⟩, ⟨"2", "Y"⟩], false, none⟩ "2"
      ⟨"9", "P"⟩ ⟨"9", "P"⟩ ⟨"2", "Y"⟩).2.2.2.1,
   (c7_server_snapshot_cached ⟨[⟨"1", "X"⟩, ⟨"2", "Y"⟩], false, none⟩ "2"
      ⟨"9", "P"⟩ ⟨"9", "P"⟩ ⟨"2", "Y"⟩).2.2.2.2⟩

/-- C8 counterexample: starting from a cache holding the single id "1",
a successful `create` whose server response also carries id "1" (as
happens when a racing list refetch has already inserted the new trip)
appends unconditionally and leaves the cache with two snapshots of id "1",
refuting the claim that every cache operation preserves the
no-duplicate-id invariant. -/
theorem c8_counterexample : ¬ createPreservesNoDup := by
  intro hclaim
  have := hclaim ⟨[⟨"1", "X"⟩], false, none⟩ ⟨"1", "P"⟩ ⟨"1", "Y"⟩ (by decide)
  exact absurd this (by decide)

/-- C8 amended: the no-duplicate-id invariant is preserved by `update`
(when the server echoes the requested id, the id sequence — hence ordering
and uniqueness — is unchanged and the entry is overwritten in place), by
`remove`, and by a refetch whose response is itself duplicate-free; but
`create` preserves it only under the additional assumption that the
created id is not already cached, because it appends unconditionally. -/
theorem c8_amended_invariant (s : TripsState) (tripId : String)
    (payload t : Trip) (resp : List Trip)
    (hnd : (s.trips.map Trip.id).Nodup) :
    (t.id = tripId →
      (updateTrip s tripId payload (.ok t)).1.trips.map Trip.id =
        s.trips.map Trip.id) ∧
    (t.id = tripId →
      ((updateTrip s tripId payload (.ok t)).1.trips.map Trip.id).Nodup) ∧
    ((deleteTrip s tripId (.ok ())).1.trips.map Trip.id).Nodup ∧
    ((resp.map Trip.id).Nodup →
      ((fetchTrips true s (.ok resp)).trips.map Trip.id).Nodup) ∧
    (t.id ∉ s.trips.map Trip.id →
      ((createTrip s payload (.ok t)).1.trips.map Trip.id).Nodup) := by
  have hupd : t.id = tripId →
      (updateTrip s tripId payload (.ok t)).1.trips.map Trip.id =
        s.trips.map Trip.id := by
    intro hid
    exact map_id_update s.trips tripId t hid
  refine ⟨hupd, ?_, ?_, ?_, ?_⟩
  · intro hid
    rw [hupd hid]
    exact hnd
  · exact hnd.sublist ((List.filter_sublist _).map Trip.id)
  · intro hresp
    exact hresp
  · intro hfresh
    show ((s.trips ++ [t]).map Trip.id).Nodup
    rw [List.map_append, List.nodup_append]
    refine ⟨hnd, List.nodup_singleton _, ?_⟩
    intro x hx hx'
    simp only [List.map_cons, List.map_nil, List.mem_singleton] at hx'
    rw [hx'] at hx
    exact hfresh hx

/-- C8 amended witness: concrete instance with ids ["1","2"], updating id
"2" in place, removing id "2", refetching a duplicate-free list, and
creating a fresh id "3". -/
theorem c8_amended_invariant_witness :
    (updateTrip ⟨[⟨"1", "X"⟩, ⟨"2", "Y"⟩], false, none⟩ "2" ⟨"9", "P"⟩
        (.ok ⟨"2", "Z"⟩)).1.trips.map Trip.id =
      [⟨"1", "X"⟩, ⟨"2", "Y"⟩].map Trip.id ∧
    ((deleteTrip ⟨[⟨"1", "X"⟩, ⟨"2", "Y"⟩], false, none⟩ "2"
        (.ok ())).1.trips.map Trip.id).Nodup ∧
    ((createTrip ⟨[⟨"1", "X"⟩, ⟨"2", "Y"⟩], false, none⟩ ⟨"9", "P"⟩
        (.ok ⟨"3", "W"⟩)).1.trips.map Trip.id).Nodup :=
  ⟨(c8_amended_invariant ⟨[⟨"1", "X"⟩, ⟨"2", "Y"⟩], false, none⟩ "2" ⟨"9", "P"⟩
      ⟨"2", "Z"⟩ [] (by decide)).1 rfl,
   (c8_amended_invariant ⟨[⟨"1", "X"⟩, ⟨"2", "Y"⟩], false, none⟩ "2" ⟨"9", "P"⟩
      ⟨"2", "Z"⟩ [] (by decide)).2.2.1,
   (c8_amended_invariant ⟨[⟨"1", "X"⟩, ⟨"2", "Y"⟩], false, none⟩ "2" ⟨"9", "P"⟩
      ⟨"3", "W"⟩ [] (by decide)).2.2.2.2 (by decide)⟩

/-- C2 counterexample: cache holds trip "42"; requests R1 then R2 are in
flight; R2's response `{id:"42",title:"v2"}` arrives and is applied first,
then R1's stale response `{id:"42",title:"v1"}` arrives and is applied.
The cache ends up holding R1's result "v1", not R2's "v2": there is no
per-id sequence number and the later arrival always wins. -/
theorem c2_counterexample : ¬ staleResponseDiscarded := by
  intro hclaim
  have := hclaim ⟨[⟨"42", "old"⟩], false, none⟩ "42" ⟨"42", "v1"⟩ ⟨"42", "v2"⟩
    (by decide) (by decide) (by decide)
  exact absurd this (by decide)

/-- C2 amended: concurrent responses for the same cached id are resolved
as unconditional last-response-wins by arrival order: whatever response is
applied last (here `tLast`, applied after `tPrev`) is what the cache
holds, regardless of which request was issued first — stale responses are
never discarded. -/
theorem c2_amended_last_arrival_wins (s : TripsState) (id : String)
    (payload tPrev tLast : Trip) (hPrev : tPrev.id = id) (hLast : tLast.id = id)
    (hs : (findTrip id s.trips).isSome = true) :
    findTrip id
      ((updateTrip (updateTrip s id payload (.ok tPrev)).1 id payload
        (.ok tLast)).1.trips) = some tLast := by
  simp only [updateTrip, tripsServiceUpdateTrip]
  apply findTrip_update _ id tLast hLast
  rw [findTrip_update s.trips id tPrev hPrev hs]
  rfl

/-- C2 amended witness: the concrete race of the counterexample, showing
the cache ends up holding the response applied last. -/
theorem c2_amended_last_arrival_wins_witness :
    findTrip "42"
      ((updateTrip (updateTrip ⟨[⟨"42", "old"⟩], false, none⟩ "42" ⟨"42", "old"⟩
          (.ok ⟨"42", "v2"⟩)).1 "42" ⟨"42", "old"⟩
          (.ok ⟨"42", "v1"⟩)).1.trips) = some ⟨"42", "v1"⟩ :=
  c2_amended_last_arrival_wins ⟨[⟨"42", "old"⟩], false, none⟩ "42" ⟨"42", "old"⟩
    ⟨"42", "v2"⟩ ⟨"42", "v1"⟩ (by decide) (by decide) (by decide)

/-- C1 counterexample: bind to "A", let it open, bind to "B", let it open
(`traceC1`). The new channel to "B" is canonical and Open while the old
channel to "A" is still Closing, not fully closed — refuting
teardown-before-canonical. Delivering the old channel's pending close
completion afterwards (`traceC1close`) runs the old `onclose` handler,
which resets `isConnected` to false and `currentTripId` to null even
though the canonical channel to "B" is still Open — the observed sequence
is not `Closing(A) → Idle → Connecting(B) → Open(B)`. -/
theorem c1_counterexample :
    ¬ fullyTornDownBeforeCanonical ∧
    (run initWS traceC1close).isConnected = false ∧
    (run initWS traceC1close).currentTripId = none ∧
    sockById 1 (run initWS traceC1close).sockets = some ⟨1, "B", .opened⟩ := by
  refine ⟨?_, by decide, by decide, by decide⟩
  intro hclaim
  have := hclaim traceC1 ⟨0, "A", .closing⟩ (by decide)
    ⟨⟨1, "B", .opened⟩, by decide, by decide, rfl⟩ (by decide)
  exact absurd this (by decide)

/-- C1 amended: in every reachable state at most one channel is Open, and
once a channel's teardown has begun (it is no longer OPEN — Closing or
Closed) no frame delivered on it is dispatched as a Sync Event; but the
previous channel is not fully closed before the new one becomes canonical,
and its close handler may still fire afterwards and clobber the
connectivity status (see the counterexample). -/
theorem c1_amended_single_open (tr : List Step) :
    (((run initWS tr).sockets.filter fun so => so.ready == .opened).length ≤ 1) ∧
    (∀ (h : Nat) (frame : Option Msg) (so : Socket),
      sockById h (run initWS tr).sockets = some so → so.ready ≠ .opened →
      (step (run initWS tr) (.msgEvt h frame)).2 = []) := by
  refine ⟨inv_open_le_one _ (run_inv tr), ?_⟩
  intro h frame so hfind hr
  simp [step, hfind, hr]

/-- C1 amended witness: after `traceC1` at most one socket is open, and an
in-flight `trip_updated` frame delivered on the old Closing channel to "A"
dispatches nothing. -/
theorem c1_amended_single_open_witness :
    (((run initWS traceC1).sockets.filter fun so => so.ready == .opened).length ≤ 1) ∧
    (step (run initWS traceC1)
      (.msgEvt 0 (some ⟨"trip_updated", some "A"⟩))).2 = [] :=
  ⟨(c1_amended_single_open traceC1).1,
   (c1_amended_single_open traceC1).2 0 (some ⟨"trip_updated", some "A"⟩)
     ⟨0, "A", .closing⟩ (by decide) (by decide)⟩

/-- C3 counterexample: with an Open binding to "A", a second
`connectToTrip("A")` is not a no-op (it closes socket 0 and creates socket
1), and the double-bind trace `traceC3` exhibits two Open transitions, not
one. -/
theorem c3_counterexample :
    ¬ bindIdempotentNoOp ∧ openCount initWS traceC3 = 2 := by
  refine ⟨?_, by decide⟩
  intro hclaim
  have := hclaim wsOpenA "A" ⟨0, "A", .opened⟩ (by decide) (by decide) rfl
    (Or.inr rfl)
  exact absurd this (by decide)

/-- C3 amended: `connectToTrip(r)` with a user and a non-empty room id is
never a no-op, whatever the current binding: it always creates a fresh
CONNECTING socket (with the next free id) which becomes `wsRef.current`,
growing the socket population by one — so a repeated bind to the same room
performs a full second handshake with a second Open transition rather than
being idempotent. -/
theorem c3_amended_rebind_reconnects (s : WSState) (r : String) (hr : r ≠ "")
    (hb : ∀ so ∈ s.sockets, so.id < s.nextId) :
    (step s (.connect true (some r))).1.currentWs = some s.nextId ∧
    sockById s.nextId (step s (.connect true (some r))).1.sockets =
      some ⟨s.nextId, r, .connecting⟩ ∧
    (step s (.connect true (some r))).1.sockets.length = s.sockets.length + 1 := by
  have hg : ¬(true = false ∨ r = "") := by simp [hr]
  refine ⟨?_, ?_, ?_⟩
  · simp [step, hr]
  · simp only [step, if_neg hg, sockById]
    rw [List.find?_append, find?_id_none]
    · simp
    · intro so hso
      have hmem : so.id ∈ s.sockets.map Socket.id := by
        rw [← closeCurrent_ids s]
        exact List.mem_map_of_mem _ hso
      rcases List.mem_map.1 hmem with ⟨orig, horig, hid⟩
      have := hb orig horig
      omega
  · simp only [step, if_neg hg]
    show (closeCurrent s ++ [Socket.mk s.nextId r .connecting]).length =
      s.sockets.length + 1
    rw [List.length_append, closeCurrent_length]
    rfl

/-- C3 amended witness: rebinding to "A" from the open-on-"A" state
creates socket 1 as the new current connecting socket. -/
theorem c3_amended_rebind_reconnects_witness :
    (step wsOpenA (.connect true (some "A"))).1.currentWs = some 1 ∧
    sockById 1 (step wsOpenA (.connect true (some "A"))).1.sockets =
      some ⟨1, "A", .connecting⟩ ∧
    (step wsOpenA (.connect true (some "A"))).1.sockets.length =
      wsOpenA.sockets.length + 1 :=
  c3_amended_rebind_reconnects wsOpenA "A" (by decide) (by decide)

end Tripping
